/-
Verification of the OVH DNS management script (scripts/ovh-dns.py).

The script is shallowly embedded below:
* the request signer (`ovh_call`, lines 63-68) becomes `to_sign` / `ovhSignature`,
  with an executable SHA-1 over byte lists standing in for `hashlib.sha1`;
* the record operations (`list_records`, `add_record`, `delete_record`,
  `refresh_zone`) become pure functions over an abstract provider state
  (`Server`), returning the value computed by the Python code together with
  the list of authenticated HTTP calls issued (`Call`) and the lines printed;
* the public-IP resolver (`get_server_ip`) and the CLI dispatcher (`main`)
  become functions over an `HttpWorld` oracle describing the outcome of the
  outside-world requests;
* the `.env` loader (lines 26-33) becomes `loadEnv` over an association list
  modelling `os.environ`.
-/
import Mathlib

set_option maxHeartbeats 1000000
set_option maxRecDepth 100000

/-! ## SHA-1 (model of `hashlib.sha1`), hex digests, UTF-8 encoding -/

/-- Left-rotation of a 32-bit word represented as a `Nat`. -/
def ROTL (n x : Nat) : Nat := ((x <<< n) ||| (x >>> (32 - n))) % 2 ^ 32

/-- One SHA-1 round: `i` is the round index, `wi` the schedule word, and the
state is the tuple `(a, b, c, d, e)` of 32-bit words. -/
def sha1Round (i wi : Nat) (st : Nat × Nat × Nat × Nat × Nat) :
    Nat × Nat × Nat × Nat × Nat :=
  let (a, b, c, d, e) := st
  let f :=
    if i < 20 then (b &&& c) ||| ((b ^^^ 0xFFFFFFFF) &&& d)
    else if i < 40 then b ^^^ c ^^^ d
    else if i < 60 then (b &&& c) ||| (b &&& d) ||| (c &&& d)
    else b ^^^ c ^^^ d
  let k :=
    if i < 20 then 0x5A827999
    else if i < 40 then 0x6ED9EBA1
    else if i < 60 then 0x8F1BBCDC
    else 0xCA62C1D6
  let temp := (ROTL 5 a + f + e + k + wi) % 2 ^ 32
  (temp, a, ROTL 30 b, c, d)

/-- Extend a 16-word chunk by `n` further schedule words. -/
def extendSchedule : Nat → List Nat → List Nat
  | 0, w => w
  | n + 1, w =>
    let l := w.length
    let x := ROTL 1 ((w.getD (l - 3) 0) ^^^ (w.getD (l - 8) 0) ^^^
      (w.getD (l - 14) 0) ^^^ (w.getD (l - 16) 0))
    extendSchedule n (w ++ [x])

/-- Compress one 16-word chunk into the running SHA-1 state. -/
def sha1Compress (h : Nat × Nat × Nat × Nat × Nat) (chunk : List Nat) :
    Nat × Nat × Nat × Nat × Nat :=
  let w := extendSchedule 64 chunk
  let (h0, h1, h2, h3, h4) := h
  let (a, b, c, d, e) := w.enum.foldl (fun st p => sha1Round p.1 p.2 st) (h0, h1, h2, h3, h4)
  ((h0 + a) % 2 ^ 32, (h1 + b) % 2 ^ 32, (h2 + c) % 2 ^ 32,
    (h3 + d) % 2 ^ 32, (h4 + e) % 2 ^ 32)

/-- Fold `sha1Compress` over the 16-word chunks of the padded message. -/
def sha1Blocks (h : Nat × Nat × Nat × Nat × Nat) :
    List Nat → Nat × Nat × Nat × Nat × Nat
  | w0 :: w1 :: w2 :: w3 :: w4 :: w5 :: w6 :: w7 ::
      w8 :: w9 :: w10 :: w11 :: w12 :: w13 :: w14 :: w15 :: rest =>
    sha1Blocks (sha1Compress h
      [w0, w1, w2, w3, w4, w5, w6, w7, w8, w9, w10, w11, w12, w13, w14, w15]) rest
  | _ => h

/-- Big-endian byte decomposition: `beBytes k n` is the `k` low bytes of `n`,
most significant first. -/
def beBytes : Nat → Nat → List Nat
  | 0, _ => []
  | k + 1, n => beBytes k (n / 256) ++ [n % 256]

/-- SHA-1 padding: append `0x80`, zero bytes up to 56 mod 64, and the 64-bit
big-endian bit length. -/
def sha1Pad (msg : List Nat) : List Nat :=
  let len := msg.length
  let zeros := (119 - len % 64) % 64
  msg ++ [128] ++ List.replicate zeros 0 ++ beBytes 8 (len * 8)

/-- Group a byte list into 32-bit big-endian words. -/
def toWords : List Nat → List Nat
  | b0 :: b1 :: b2 :: b3 :: rest =>
    (((b0 * 256 + b1) * 256 + b2) * 256 + b3) :: toWords rest
  | _ => []

/-- SHA-1 digest of a byte list, as a single natural number below `2 ^ 160`. -/
def sha1Nat (msg : List Nat) : Nat :=
  let t := sha1Blocks (0x67452301, 0xEFCDAB89, 0x98BADCFE, 0x10325476, 0xC3D2E1F0)
    (toWords (sha1Pad msg))
  ((((t.1 % 4294967296) * 4294967296 + t.2.1 % 4294967296) * 4294967296 +
      t.2.2.1 % 4294967296) * 4294967296 + t.2.2.2.1 % 4294967296) * 4294967296 +
    t.2.2.2.2 % 4294967296

/-- Lowercase hexadecimal rendering of a digest, zero-padded to 40 characters,
as produced by `hashlib`'s `hexdigest()`. -/
def hexDigest (n : Nat) : String :=
  let s := (Nat.toDigits 16 n).asString
  (List.replicate (40 - s.length) '0').asString ++ s

/-- UTF-8 encoding of a single character, as a list of bytes. -/
def utf8Char (c : Char) : List Nat :=
  let n := c.toNat
  if n < 128 then [n]
  else if n < 2048 then [192 + n / 64, 128 + n % 64]
  else if n < 65536 then [224 + n / 4096, 128 + (n / 64) % 64, 128 + n % 64]
  else [240 + n / 262144, 128 + (n / 4096) % 64, 128 + (n / 64) % 64, 128 + n % 64]

/-- UTF-8 encoding of a string (Python's `str.encode()`). -/
def utf8Bytes (s : String) : List Nat := (s.data.map utf8Char).flatten

/-! ## The signer (`ovh_call`, lines 63-68) -/

/-- The fixed API endpoint base (line 35). -/
def OVH_ENDPOINT : String := "https://eu.api.ovh.com/1.0"

/-- The string signed by `ovh_call` (line 67):
`f"{app_secret}+{consumer_key}+{method}+{OVH_ENDPOINT}{path}+{body}+{server_time}"`. -/
def to_sign (app_secret consumer_key method path body server_time : String) : String :=
  app_secret ++ "+" ++ consumer_key ++ "+" ++ method ++ "+" ++ OVH_ENDPOINT ++ path ++
    "+" ++ body ++ "+" ++ server_time

/-- The signature computed by `ovh_call` (line 68):
`"$1$" + hashlib.sha1(to_sign.encode()).hexdigest()`. -/
def ovhSignature (app_secret consumer_key method path body server_time : String) : String :=
  "$1$" ++ hexDigest (sha1Nat (utf8Bytes
    (to_sign app_secret consumer_key method path body server_time)))

/-- Signature format as the specification words it (spec section 4.1): `$1$`
followed by the hex SHA-1 digest of
`secret + "+" + consumer_key + "+" + method + "+" + full_url + "+" + body + "+" + server_time`,
where `full_url` is an input of its own. -/
def specSignature (secret consumer_key method full_url body server_time : String) : String :=
  "$1$" ++ hexDigest (sha1Nat (utf8Bytes
    (secret ++ "+" ++ consumer_key ++ "+" ++ method ++ "+" ++ full_url ++ "+" ++
      body ++ "+" ++ server_time)))

/-- Sanity anchor for the SHA-1 model: the standard test vector for `"abc"`. -/
theorem sha1_abc : hexDigest (sha1Nat (utf8Bytes "abc")) =
    "a9993e364706816aba3e25717850c26c9cd0d89d" := by decide

/-! ## Data model: DNS records, HTTP calls, provider state -/

/-- A DNS record as handled by the script (JSON fields `id`, `subDomain`,
`fieldType`, `target`, `ttl`). -/
structure DnsRecord where
  id : Nat
  subDomain : String
  fieldType : String
  target : String
  ttl : Nat
deriving DecidableEq, Repr

/-- One authenticated HTTP call issued through `ovh_call`: its method and path. -/
structure Call where
  method : String
  path : String
deriving DecidableEq, Repr

/-- Abstract state of the provider plus the outcome of each kind of request:
`zone` is the list of records, `nextId` the id the provider will assign to the
next created record, and the `...Ok` fields say whether each kind of request
returns a success status. `errText` models `response.text` of failing calls. -/
structure Server where
  zone : List DnsRecord
  nextId : Nat
  listOk : Bool
  detailOk : Nat → Bool
  postOk : Bool
  deleteOk : Nat → Bool
  refreshOk : Bool
  errText : String

/-- Python truthiness of an optional string: `None` and `""` are falsy. -/
def truthy : Option String → Bool
  | none => false
  | some s => s != ""

/-- Which zone records the provider's listing endpoint returns for the query
parameters built by `list_records` (lines 96-103): `fieldType` and `subDomain`
filters are only applied when the corresponding argument is truthy. -/
def matchesQuery (record_type subdomain : Option String) (r : DnsRecord) : Bool :=
  (if truthy record_type then r.fieldType == record_type.getD "" else true) &&
  (if truthy subdomain then r.subDomain == subdomain.getD "" else true)

/-- Path of the record collection (`f"/domain/zone/{domain}/record"`). -/
def recordPath (domain : String) : String :=
  "/domain/zone/" ++ domain ++ "/record"

/-- Path of a single record (`f"/domain/zone/{domain}/record/{record_id}"`). -/
def recordIdPath (domain : String) (i : Nat) : String :=
  "/domain/zone/" ++ domain ++ "/record/" ++ toString i

/-- Path of the zone refresh endpoint (`f"/domain/zone/{domain}/refresh"`). -/
def refreshPath (domain : String) : String :=
  "/domain/zone/" ++ domain ++ "/refresh"

/-- The listing query path built on lines 96-103, with optional
`fieldType=`/`subDomain=` parameters. -/
def listQueryPath (domain : String) (record_type subdomain : Option String) : String :=
  let params :=
    (if truthy record_type then ["fieldType=" ++ record_type.getD ""] else []) ++
    (if truthy subdomain then ["subDomain=" ++ subdomain.getD ""] else [])
  if params.isEmpty then recordPath domain
  else recordPath domain ++ "?" ++ String.intercalate "&" params

/-- Result of `list_records`: the returned records, the HTTP calls issued and
the lines printed. A `GET` does not change the provider state. -/
structure ListResult where
  records : List DnsRecord
  calls : List Call
  output : List String

/-- Result of a mutating operation: the returned boolean, the provider state
afterwards, the HTTP calls issued and the lines printed. -/
structure OpResult where
  ok : Bool
  server : Server
  calls : List Call
  output : List String

/-! ## Record operations (lines 94-189) -/

/-- `list_records(domain, record_type, subdomain)` (lines 94-118): one listing
`GET`; on non-200 print the error and return `[]`; otherwise one detail `GET`
per returned id, keeping only the details that come back with status 200. -/
def list_records (srv : Server) (domain : String)
    (record_type subdomain : Option String) : ListResult :=
  let lc : Call := ⟨"GET", listQueryPath domain record_type subdomain⟩
  if srv.listOk then
    let ids := (srv.zone.filter (matchesQuery record_type subdomain)).map (fun r => r.id)
    { records := ids.filterMap (fun i =>
        if srv.detailOk i then srv.zone.find? (fun r => r.id == i) else none),
      calls := lc :: ids.map (fun i => ⟨"GET", recordIdPath domain i⟩),
      output := [] }
  else
    { records := [], calls := [lc],
      output := ["Error listing records: " ++ srv.errText] }

/-- `refresh_zone(domain)` (lines 181-189): one refresh `POST`; failure is only
a warning. -/
def refresh_zone (srv : Server) (domain : String) : OpResult :=
  if srv.refreshOk then
    ⟨true, srv, [⟨"POST", refreshPath domain⟩], ["Zone " ++ domain ++ " refreshed"]⟩
  else
    ⟨false, srv, [⟨"POST", refreshPath domain⟩],
      ["Warning: Could not refresh zone: " ++ srv.errText]⟩

/-- The `for rec in records` loop of `delete_record` (lines 163-171): issue a
`DELETE` for every listed record whose `subDomain` matches; `ok` is the
`deleted` flag (true as soon as one deletion succeeded). -/
def deleteLoop (domain subdomain : String) (srv : Server) :
    List DnsRecord → OpResult
  | [] => ⟨false, srv, [], []⟩
  | r0 :: rest =>
    if r0.subDomain == subdomain then
      if srv.deleteOk r0.id then
        let srv2 := { srv with zone := srv.zone.filter (fun x => x.id != r0.id) }
        let r := deleteLoop domain subdomain srv2 rest
        ⟨true, r.server, ⟨"DELETE", recordIdPath domain r0.id⟩ :: r.calls,
          ("Deleted record: " ++ subdomain ++ "." ++ domain ++ " (ID: " ++
            toString r0.id ++ ")") :: r.output⟩
      else
        let r := deleteLoop domain subdomain srv rest
        ⟨r.ok, r.server, ⟨"DELETE", recordIdPath domain r0.id⟩ :: r.calls,
          ("Error deleting record " ++ toString r0.id ++ ": " ++ srv.errText) :: r.output⟩
    else
      deleteLoop domain subdomain srv rest

/-- `delete_record(domain, subdomain, record_type)` (lines 158-178): list, then
delete every match; refresh only if something was deleted; print "not found"
only when the listing returned zero records; return the `deleted` flag. -/
def delete_record (srv : Server) (domain subdomain record_type : String) : OpResult :=
  let lr := list_records srv domain (some record_type) (some subdomain)
  let dl := deleteLoop domain subdomain srv lr.records
  if dl.ok then
    let rz := refresh_zone dl.server domain
    ⟨true, rz.server, lr.calls ++ dl.calls ++ rz.calls, lr.output ++ dl.output ++ rz.output⟩
  else if lr.records.isEmpty then
    ⟨false, dl.server, lr.calls ++ dl.calls,
      lr.output ++ dl.output ++
        ["No " ++ record_type ++ " record found for " ++ subdomain ++ "." ++ domain]⟩
  else
    ⟨false, dl.server, lr.calls ++ dl.calls, lr.output ++ dl.output⟩

/-- The `for rec in existing` loop of `add_record` (lines 127-136): on the
first listed record matching `(subdomain, record_type)` with identical target,
print "already exists" and return `True` (`ok = true` here); with a different
target, print and call `delete_record`, then keep scanning the stale snapshot. -/
def addLoop (domain subdomain target record_type : String) (srv : Server) :
    List DnsRecord → OpResult
  | [] => ⟨false, srv, [], []⟩
  | r0 :: rest =>
    if r0.subDomain == subdomain && r0.fieldType == record_type then
      if r0.target == target then
        ⟨true, srv, [],
          ["Record already exists: " ++ subdomain ++ "." ++ domain ++ " -> " ++ target]⟩
      else
        let d := delete_record srv domain subdomain record_type
        let cont := addLoop domain subdomain target record_type d.server rest
        ⟨cont.ok, cont.server, d.calls ++ cont.calls,
          ["Record exists with different target: " ++ r0.target,
           "Updating to: " ++ target] ++ d.output ++ cont.output⟩
    else
      addLoop domain subdomain target record_type srv rest

/-- `add_record(domain, subdomain, target, record_type, ttl)` (lines 121-155):
list the matching records, run the reconciliation loop; unless the loop
returned early, `POST` the new record and refresh on success. -/
def add_record (srv : Server) (domain subdomain target record_type : String)
    (ttl : Nat) : OpResult :=
  let lr := list_records srv domain (some record_type) (some subdomain)
  let al := addLoop domain subdomain target record_type srv lr.records
  if al.ok then
    ⟨true, al.server, lr.calls ++ al.calls, lr.output ++ al.output⟩
  else
    let srv2 := al.server
    let c : Call := ⟨"POST", recordPath domain⟩
    if srv2.postOk then
      let newRec : DnsRecord := ⟨srv2.nextId, subdomain, record_type, target, ttl⟩
      let srv3 := { srv2 with zone := srv2.zone ++ [newRec], nextId := srv2.nextId + 1 }
      let rz := refresh_zone srv3 domain
      ⟨true, rz.server, lr.calls ++ al.calls ++ [c] ++ rz.calls,
        lr.output ++ al.output ++
          ["Added " ++ record_type ++ " record: " ++ subdomain ++ "." ++ domain ++
            " -> " ++ target] ++ rz.output⟩
    else
      ⟨false, srv2, lr.calls ++ al.calls ++ [c],
        lr.output ++ al.output ++ ["Error adding record: " ++ srv2.errText]⟩

/-! ## Public-IP resolver, `.env` loader, CLI dispatcher (lines 26-33, 39-49, 206-263) -/

/-- Outcome of the outside-world requests the script may make: each echo service
either raises (`none`, caught by the bare `except:`) or returns a response
`(status_code, text)`; `resolve` models `socket.gethostbyname`. -/
structure HttpWorld where
  primary : Option (Nat × String)
  secondary : Option (Nat × String)
  resolve : String → Option String

/-- The whitespace characters removed by Python's `str.strip()`. -/
def isSpaceChar (c : Char) : Bool :=
  c == ' ' || c == '\t' || c == '\n' || c == '\r' || c == '\x0b' || c == '\x0c'

/-- Python's `str.strip()`: drop whitespace from both ends. -/
def pyStrip (s : String) : String :=
  ⟨((s.data.dropWhile isSpaceChar).reverse.dropWhile isSpaceChar).reverse⟩

/-- `get_server_ip()` (lines 39-49): return the stripped body of the primary
response whenever the request does not raise (the status code is never
inspected); fall back to the secondary service only on an exception; return
`None` when both raise. -/
def get_server_ip (w : HttpWorld) : Option String :=
  match w.primary with
  | some (_, t) => some (pyStrip t)
  | none =>
    match w.secondary with
    | some (_, t) => some (pyStrip t)
    | none => none

/-- One `.env` line (lines 30-32): strip, skip blanks, `#` comments and lines
without `=`, then split on the first `=` into a stripped key and value. -/
def parseLine (line : String) : Option (String × String) :=
  let l := pyStrip line
  if l != "" && l.data.head? != some '#' && l.data.contains '=' then
    let key : String := ⟨l.data.takeWhile (fun c => c != '=')⟩
    let value : String := ⟨(l.data.dropWhile (fun c => c != '=')).drop 1⟩
    some (pyStrip key, pyStrip value)
  else none

/-- `os.environ.setdefault(k, v)`: insert only when the key is absent. -/
def setdefault (env : List (String × String)) (k v : String) :
    List (String × String) :=
  match env.lookup k with
  | some _ => env
  | none => env ++ [(k, v)]

/-- Process one `.env` line against the environment (line 33). -/
def processLine (env : List (String × String)) (line : String) :
    List (String × String) :=
  match parseLine line with
  | some (k, v) => setdefault env k v
  | none => env

/-- The `.env` loading loop (lines 28-33). -/
def loadEnv (lines : List String) (env : List (String × String)) :
    List (String × String) :=
  lines.foldl processLine env

/-- Parsed CLI arguments (lines 207-217): `subdomain` is optional, `--domain`
defaults to the optional `DOMAIN` value, `--ip` (alias `--target`) defaults to
`None`, `--type` defaults to `"CNAME"`, `--ttl` to 3600. -/
structure Args where
  action : String
  subdomain : Option String
  domain : Option String
  ip : Option String
  type : String
  ttl : Nat

/-- Result of one invocation of `main()`: the process exit status, the provider
state afterwards, the authenticated HTTP calls issued and the lines printed. -/
structure RunResult where
  exit : Nat
  server : Server
  calls : List Call
  output : List String

/-- Left-justified padding to width `n` (Python's `f"{s:20}"`). -/
def padTo (s : String) (n : Nat) : String :=
  s ++ (List.replicate (n - s.length) ' ').asString

/-- Display line for one record (line 241), with `'@'` for the apex. -/
def recordLine (r : DnsRecord) : String :=
  let sub := if r.subDomain != "" then r.subDomain else "@"
  "  " ++ padTo sub 20 ++ " " ++ padTo r.fieldType 6 ++ " " ++ r.target

/-- The sort key of line 239: `(subDomain, fieldType)`, compared
lexicographically. -/
def keyLe (x y : DnsRecord) : Bool :=
  decide (x.subDomain < y.subDomain) ||
    (x.subDomain == y.subDomain && !decide (y.fieldType < x.fieldType))

/-- Stable insertion used to model `sorted(records, key=...)`. -/
def insertRec (r : DnsRecord) : List DnsRecord → List DnsRecord
  | [] => [r]
  | x :: xs => if keyLe r x then r :: x :: xs else x :: insertRec r xs

/-- Model of `sorted(records, key=lambda x: (subDomain, fieldType))`. -/
def sortRecords (l : List DnsRecord) : List DnsRecord :=
  l.foldr insertRec []

/-- `main()` (lines 206-263) after argument parsing: dispatch on the action.
`parser.error` exits with status 2, `sys.exit(1)` with status 1, falling off
the end of `main` with status 0. Only `ovh_call` requests are recorded in
`calls`; the echo services and DNS resolution live in `HttpWorld`. -/
def runMain (w : HttpWorld) (srv : Server) (a : Args) : RunResult :=
  if a.action == "ip" then
    let ip := get_server_ip w
    if truthy ip then ⟨0, srv, [], ["Server public IP: " ++ ip.getD ""]⟩
    else ⟨0, srv, [], ["Could not determine server IP"]⟩
  else if !truthy a.domain then
    ⟨2, srv, [], ["--domain is required (or set DOMAIN in .env)"]⟩
  else
    let domain := a.domain.getD ""
    if a.action == "list" then
      let lr := list_records srv domain none a.subdomain
      if lr.records.isEmpty then
        ⟨0, srv, lr.calls, lr.output ++ ["No records found for " ++ domain]⟩
      else
        ⟨0, srv, lr.calls, lr.output ++
          ["", "DNS Records for " ++ domain ++ ":",
            (List.replicate 60 '-').asString] ++
          (sortRecords lr.records).map recordLine⟩
    else if !truthy a.subdomain then
      ⟨2, srv, [], ["subdomain is required for " ++ a.action]⟩
    else
      let sd := a.subdomain.getD ""
      if a.action == "add" then
        if a.type == "CNAME" then
          let target := if truthy a.ip then a.ip.getD "" else domain ++ "."
          let r := add_record srv domain sd target a.type a.ttl
          ⟨0, r.server, r.calls, r.output⟩
        else
          let tOpt := if truthy a.ip then a.ip else get_server_ip w
          if !truthy tOpt then
            ⟨1, srv, [],
              ["Error: Could not determine IP address. Use --ip/--target to specify."]⟩
          else
            let r := add_record srv domain sd (tOpt.getD "") a.type a.ttl
            ⟨0, r.server, r.calls, r.output⟩
      else if a.action == "delete" then
        let r := delete_record srv domain sd a.type
        ⟨0, r.server, r.calls, r.output⟩
      else if a.action == "check" then
        match w.resolve (sd ++ "." ++ domain) with
        | some ip =>
          ⟨0, srv, [], ["DNS resolution: " ++ sd ++ "." ++ domain ++ " -> " ++ ip]⟩
        | none =>
          ⟨0, srv, [], ["DNS resolution failed for " ++ sd ++ "." ++ domain]⟩
      else ⟨0, srv, [], []⟩

/-! ## Helper lemmas -/

theorem find_id_of_nodup (zone : List DnsRecord)
    (hnd : (zone.map (fun r => r.id)).Nodup) {r : DnsRecord} (hr : r ∈ zone) :
    zone.find? (fun x => x.id == r.id) = some r := by
  induction zone with
  | nil => cases hr
  | cons a l ih =>
    rw [List.map_cons, List.nodup_cons] at hnd
    rcases List.mem_cons.mp hr with h | h
    · subst h
      simp [List.find?_cons]
    · have hne : (a.id == r.id) = false := by
        refine beq_eq_false_iff_ne.mpr ?_
        intro he
        exact hnd.1 (he ▸ List.mem_map_of_mem (fun r => r.id) h)
      rw [List.find?_cons_of_neg _ (by simp [hne]), ih hnd.2 h]

theorem filterMap_detail (srv : Server) (F : List DnsRecord)
    (h : ∀ r ∈ F, srv.zone.find? (fun x => x.id == r.id) = some r) :
    (F.filterMap (fun r =>
        if srv.detailOk r.id then srv.zone.find? (fun x => x.id == r.id) else none))
      = F.filter (fun r => srv.detailOk r.id) := by
  induction F with
  | nil => rfl
  | cons a l ih =>
    have ha := h a (List.mem_cons_self a l)
    have ih2 := ih (fun r hr => h r (List.mem_cons_of_mem _ hr))
    rw [List.filterMap_cons, List.filter_cons]
    cases hd : srv.detailOk a.id <;> simp [hd, ha, ih2]

/-- Main characterization of `list_records` on a healthy listing: it returns
the zone records matching the query whose detail fetch succeeds, in order. -/
theorem list_records_records (srv : Server) (domain : String)
    (rt sd : Option String) (hl : srv.listOk = true)
    (hnd : (srv.zone.map (fun r => r.id)).Nodup) :
    (list_records srv domain rt sd).records
      = (srv.zone.filter (matchesQuery rt sd)).filter (fun r => srv.detailOk r.id) := by
  simp only [list_records, hl, if_true]
  rw [List.filterMap_map]
  exact filterMap_detail srv _ (fun r hr =>
    find_id_of_nodup _ hnd (List.mem_of_mem_filter hr))

theorem list_records_calls_method (srv : Server) (domain : String)
    (rt sd : Option String) :
    ∀ c ∈ (list_records srv domain rt sd).calls, c.method = "GET" := by
  intro c hc
  simp only [list_records] at hc
  split at hc
  · rcases List.mem_cons.mp hc with h | h
    · subst h; rfl
    · rcases List.mem_map.mp h with ⟨i, _, hi⟩
      subst hi; rfl
  · simp only [List.mem_singleton] at hc
    subst hc; rfl

theorem list_records_calls_filter (srv : Server) (domain : String)
    (rt sd : Option String) (p : Call → Bool)
    (hp : ∀ s, p ⟨"GET", s⟩ = false) :
    (list_records srv domain rt sd).calls.filter p = [] := by
  rw [List.filter_eq_nil_iff]
  intro c hc
  have hm := list_records_calls_method srv domain rt sd c hc
  obtain ⟨m, s⟩ := c
  simp only at hm
  subst hm
  simp [hp s]

theorem refresh_zone_server (srv : Server) (d : String) :
    (refresh_zone srv d).server = srv := by
  cases h : srv.refreshOk <;> simp [refresh_zone, h]

theorem refresh_zone_calls (srv : Server) (d : String) :
    (refresh_zone srv d).calls = [⟨"POST", refreshPath d⟩] := by
  cases h : srv.refreshOk <;> simp [refresh_zone, h]

theorem str_cancel_left {a x y : String} (h : a ++ x = a ++ y) : x = y := by
  apply String.ext
  have h2 := congrArg String.data h
  rw [String.data_append, String.data_append] at h2
  exact List.append_cancel_left h2

theorem str_cancel_right {x y a : String} (h : x ++ a = y ++ a) : x = y := by
  apply String.ext
  have h2 := congrArg String.data h
  rw [String.data_append, String.data_append] at h2
  exact List.append_cancel_right h2

theorem str_ne_of_head {a b : String} (h : a.data.head? ≠ b.data.head?) : a ≠ b :=
  fun e => h (by rw [e])

theorem refreshPath_ne_recordPath (d : String) : refreshPath d ≠ recordPath d := by
  intro h
  have hl := congrArg String.length h
  rw [refreshPath, recordPath] at hl
  simp only [String.length_append] at hl
  have h8 : ("/refresh" : String).length = 8 := rfl
  have h7 : ("/record" : String).length = 7 := rfl
  rw [h8, h7] at hl
  omega

/-! ## Environment-loading lemmas (for the `.env` loader) -/

theorem lookup_append_of_none {k : String} {env : List (String × String)}
    (l2 : List (String × String)) (h : env.lookup k = none) :
    (env ++ l2).lookup k = l2.lookup k := by
  induction env with
  | nil => rfl
  | cons p t ih =>
    obtain ⟨a, b⟩ := p
    rw [List.cons_append]
    cases hk : (k == a) with
    | true => simp [List.lookup, hk] at h
    | false =>
      simp only [List.lookup, hk] at h ⊢
      exact ih h

theorem lookup_append_of_some {k w : String} {env : List (String × String)}
    (l2 : List (String × String)) (h : env.lookup k = some w) :
    (env ++ l2).lookup k = some w := by
  induction env with
  | nil => simp [List.lookup] at h
  | cons p t ih =>
    obtain ⟨a, b⟩ := p
    rw [List.cons_append]
    cases hk : (k == a) with
    | true => simp_all [List.lookup]
    | false =>
      simp only [List.lookup, hk] at h ⊢
      exact ih h

theorem processLine_preserves {env : List (String × String)} {k w : String}
    (line : String) (h : env.lookup k = some w) :
    (processLine env line).lookup k = some w := by
  cases hp : parseLine line with
  | none => simpa [processLine, hp] using h
  | some p =>
    obtain ⟨k2, v2⟩ := p
    cases hl : env.lookup k2 with
    | some _ => simpa [processLine, hp, setdefault, hl] using h
    | none =>
      simp only [processLine, hp, setdefault, hl]
      exact lookup_append_of_some _ h

theorem loadEnv_preserves {k w : String} (lines : List String)
    (env : List (String × String)) (h : env.lookup k = some w) :
    (loadEnv lines env).lookup k = some w := by
  induction lines generalizing env with
  | nil => exact h
  | cons l t ih => exact ih _ (processLine_preserves l h)

theorem processLine_sets {env : List (String × String)} {k v : String}
    {line : String} (hp : parseLine line = some (k, v))
    (h : env.lookup k = none) : (processLine env line).lookup k = some v := by
  simp only [processLine, hp, setdefault, h]
  rw [lookup_append_of_none _ h]
  simp [List.lookup]

/-! ## Claim theorems -/

/-- C3 (counterexample): with the primary echo service returning a non-2xx
response whose body is "oops" and a healthy secondary, `get_server_ip` does
NOT fall back to the secondary: it returns the primary body itself.  And with
both services raising, it returns `none`, never the string `"unknown"`. -/
theorem get_server_ip_counterexample :
    get_server_ip ⟨some (500, "oops"), some (200, "203.0.113.5"), fun _ => none⟩
        ≠ some "203.0.113.5" ∧
    get_server_ip ⟨some (500, "oops"), some (200, "203.0.113.5"), fun _ => none⟩
        = some "oops" ∧
    get_server_ip ⟨none, none, fun _ => none⟩ ≠ some "unknown" := by
  refine ⟨?_, rfl, ?_⟩ <;> decide

/-- C3 (amended): the resolver returns the stripped primary body whenever the
primary request does not raise — regardless of its HTTP status, which is never
inspected; it falls back to the secondary only when the primary raises; and
when both raise it returns `None` (not the string `"unknown"`). -/
theorem get_server_ip_fallback (st : Nat) (txt : String)
    (sec : Option (Nat × String)) (res : String → Option String) :
    get_server_ip ⟨some (st, txt), sec, res⟩ = some (pyStrip txt) ∧
    get_server_ip ⟨none, some (st, txt), res⟩ = some (pyStrip txt) ∧
    get_server_ip ⟨none, none, res⟩ = none :=
  ⟨rfl, rfl, rfl⟩

/-- C4: for every secret, consumer key, method, path, body and server time,
the signature computed by the client (`"$1$"` + lowercase hex SHA-1 of the
`+`-joined fields, with the endpoint base inlined before the path) equals the
specification's signature taken at `full_url = OVH_ENDPOINT ++ path`. -/
theorem signature_matches_spec
    (app_secret consumer_key method path body server_time : String) :
    ovhSignature app_secret consumer_key method path body server_time
      = specSignature app_secret consumer_key method (OVH_ENDPOINT ++ path)
          body server_time := by
  simp only [ovhSignature, specSignature, to_sign, String.append_assoc]

/-- C7: when both public-IP echo services fail and the action is `add` with
type `A` and no `--ip` flag, `main` exits with status 1 and issues zero
authenticated API calls. -/
theorem add_a_record_no_ip_exits (srv : Server) (res : String → Option String)
    (a : Args) (ha : a.action = "add") (ht : a.type = "A") (hip : a.ip = none)
    (hd : truthy a.domain = true) (hs : truthy a.subdomain = true) :
    (runMain ⟨none, none, res⟩ srv a).exit = 1 ∧
    (runMain ⟨none, none, res⟩ srv a).calls = [] := by
  have h1 : (("add" : String) == "ip") = false := rfl
  have h2 : (("add" : String) == "list") = false := rfl
  have h3 : (("add" : String) == "add") = true := rfl
  have h4 : (("A" : String) == "CNAME") = false := rfl
  have h5 : truthy none = false := rfl
  simp [runMain, ha, ht, hip, hd, hs, h1, h2, h3, h4, h5, get_server_ip]

/-- C7 witness. -/
theorem add_a_record_no_ip_exits_witness :
    ((⟨"add", some "api", some "example.com", none, "A", 3600⟩ : Args).action = "add") ∧
    ((⟨"add", some "api", some "example.com", none, "A", 3600⟩ : Args).type = "A") ∧
    ((⟨"add", some "api", some "example.com", none, "A", 3600⟩ : Args).ip = none) ∧
    (truthy (⟨"add", some "api", some "example.com", none, "A", 3600⟩ : Args).domain = true) ∧
    (truthy (⟨"add", some "api", some "example.com", none, "A", 3600⟩ : Args).subdomain = true) ∧
    ((runMain ⟨none, none, fun _ => none⟩
        ⟨[], 1, true, fun _ => true, true, fun _ => true, true, "e"⟩
        ⟨"add", some "api", some "example.com", none, "A", 3600⟩).exit = 1 ∧
      (runMain ⟨none, none, fun _ => none⟩
        ⟨[], 1, true, fun _ => true, true, fun _ => true, true, "e"⟩
        ⟨"add", some "api", some "example.com", none, "A", 3600⟩).calls = []) :=
  ⟨rfl, rfl, rfl, rfl, rfl,
    add_a_record_no_ip_exits _ _ _ rfl rfl rfl rfl rfl⟩

/-- C10: whenever the listing query itself succeeds, `list_records` returns
exactly the query-matching records whose per-id detail fetch succeeds, in
listing order, and prints nothing — records whose detail fetch fails are
silently omitted. -/
theorem list_records_drops_failed_details (srv : Server) (domain : String)
    (rt sd : Option String) (hl : srv.listOk = true)
    (hnd : (srv.zone.map (fun r => r.id)).Nodup) :
    (list_records srv domain rt sd).records
      = (srv.zone.filter (matchesQuery rt sd)).filter (fun r => srv.detailOk r.id) ∧
    (list_records srv domain rt sd).output = [] := by
  refine ⟨list_records_records srv domain rt sd hl hnd, ?_⟩
  simp [list_records, hl]

/-- C10 witness: a two-record zone where the detail fetch for id 2 fails. -/
theorem list_records_drops_failed_details_witness :
    ((Server.mk [⟨1, "a", "A", "1.1.1.1", 60⟩, ⟨2, "a", "A", "2.2.2.2", 60⟩] 3
        true (fun i => i != 2) true (fun _ => true) true "err").listOk = true) ∧
    (((Server.mk [⟨1, "a", "A", "1.1.1.1", 60⟩, ⟨2, "a", "A", "2.2.2.2", 60⟩] 3
        true (fun i => i != 2) true (fun _ => true) true "err").zone.map
          (fun r => r.id)).Nodup) ∧
    ((list_records (Server.mk [⟨1, "a", "A", "1.1.1.1", 60⟩, ⟨2, "a", "A", "2.2.2.2", 60⟩] 3
        true (fun i => i != 2) true (fun _ => true) true "err") "d" none (some "a")).records
      = ((Server.mk [⟨1, "a", "A", "1.1.1.1", 60⟩, ⟨2, "a", "A", "2.2.2.2", 60⟩] 3
        true (fun i => i != 2) true (fun _ => true) true "err").zone.filter
          (matchesQuery none (some "a"))).filter
        (fun r => (Server.mk [⟨1, "a", "A", "1.1.1.1", 60⟩, ⟨2, "a", "A", "2.2.2.2", 60⟩] 3
          true (fun i => i != 2) true (fun _ => true) true "err").detailOk r.id) ∧
      (list_records (Server.mk [⟨1, "a", "A", "1.1.1.1", 60⟩, ⟨2, "a", "A", "2.2.2.2", 60⟩] 3
        true (fun i => i != 2) true (fun _ => true) true "err") "d" none (some "a")).output
        = []) :=
  ⟨rfl, by decide,
    list_records_drops_failed_details _ "d" none (some "a") rfl (by decide)⟩

/-- C8: the `.env` loader ignores blank lines and `#` comment lines, parses
`KEY=VALUE` lines, lets the first occurrence of a key in the file win over
later occurrences, and never overrides an environment variable that was
already set before loading. -/
theorem env_loading :
    (∀ (env : List (String × String)) (line : String), pyStrip line = "" →
      processLine env line = env) ∧
    (∀ (env : List (String × String)) (line : String),
      (pyStrip line).data.head? = some '#' → processLine env line = env) ∧
    (∀ (env : List (String × String)) (line k v : String),
      parseLine line = some (k, v) → env.lookup k = none →
      (processLine env line).lookup k = some v) ∧
    (∀ (env : List (String × String)) (lines : List String) (k w : String),
      env.lookup k = some w → (loadEnv lines env).lookup k = some w) ∧
    (∀ (env : List (String × String)) (line : String) (rest : List String)
      (k v : String), parseLine line = some (k, v) → env.lookup k = none →
      (loadEnv (line :: rest) env).lookup k = some v) := by
  refine ⟨?_, ?_, ?_, ?_, ?_⟩
  · intro env line h
    simp [processLine, parseLine, h]
  · intro env line h
    simp [processLine, parseLine, h]
  · intro env line k v hp h
    exact processLine_sets hp h
  · intro env lines k w h
    exact loadEnv_preserves lines env h
  · intro env line rest k v hp h
    have hfold : loadEnv (line :: rest) env = loadEnv rest (processLine env line) := rfl
    rw [hfold]
    exact loadEnv_preserves rest _ (processLine_sets hp h)

/-- C8 witness: a blank line, a comment line, a parsed line, a pre-set
variable kept, and a duplicated key where the first occurrence wins. -/
theorem env_loading_witness :
    (pyStrip "   " = "" ∧ processLine [("X", "1")] "   " = [("X", "1")]) ∧
    ((pyStrip " # note").data.head? = some '#' ∧
      processLine ([] : List (String × String)) " # note" = []) ∧
    (parseLine " A = 1 " = some ("A", "1") ∧
      List.lookup "A" ([] : List (String × String)) = none ∧
      (processLine [] " A = 1 ").lookup "A" = some "1") ∧
    (List.lookup "PRE" [("PRE", "env")] = some "env" ∧
      (loadEnv ["PRE=file"] [("PRE", "env")]).lookup "PRE" = some "env") ∧
    (parseLine "A=1" = some ("A", "1") ∧
      (loadEnv ["A=1", "A=2"] ([] : List (String × String))).lookup "A" = some "1") :=
  ⟨⟨by decide, env_loading.1 _ _ (by decide)⟩,
   ⟨by decide, env_loading.2.1 _ _ (by decide)⟩,
   ⟨by decide, by decide, env_loading.2.2.1 _ _ _ _ (by decide) (by decide)⟩,
   ⟨by decide, env_loading.2.2.2.1 _ _ _ _ (by decide)⟩,
   ⟨by decide, env_loading.2.2.2.2 _ _ _ _ _ (by decide) (by decide)⟩⟩

/-- C9: the `list` action never filters by record type — `main` passes no
`record_type` to `list_records`, so the whole run is unchanged under any value
of `--type`, and the listed records are filtered by the optional subdomain
only. -/
theorem list_action_ignores_type (w : HttpWorld) (srv : Server) (a : Args)
    (t2 : String) (ha : a.action = "list") (hl : srv.listOk = true)
    (hnd : (srv.zone.map (fun r => r.id)).Nodup) :
    runMain w srv a = runMain w srv { a with type := t2 } ∧
    (list_records srv (a.domain.getD "") none a.subdomain).records
      = (srv.zone.filter (fun r =>
          if truthy a.subdomain then r.subDomain == a.subdomain.getD "" else true)).filter
        (fun r => srv.detailOk r.id) := by
  constructor
  · have h1 : (("list" : String) == "ip") = false := rfl
    have h2 : (("list" : String) == "list") = true := rfl
    simp [runMain, ha, h1, h2]
  · rw [list_records_records srv _ none a.subdomain hl hnd]
    have hq : matchesQuery none a.subdomain = fun r =>
        if truthy a.subdomain then r.subDomain == a.subdomain.getD "" else true := by
      funext r
      simp [matchesQuery, truthy]
    rw [hq]

/-- C9 witness. -/
theorem list_action_ignores_type_witness :
    ((⟨"list", some "a", some "d", none, "CNAME", 60⟩ : Args).action = "list") ∧
    ((Server.mk [⟨1, "a", "A", "x", 60⟩] 2 true (fun _ => true) true (fun _ => true)
        true "e").listOk = true) ∧
    (((Server.mk [⟨1, "a", "A", "x", 60⟩] 2 true (fun _ => true) true (fun _ => true)
        true "e").zone.map (fun r => r.id)).Nodup) ∧
    (runMain ⟨none, none, fun _ => none⟩
        (Server.mk [⟨1, "a", "A", "x", 60⟩] 2 true (fun _ => true) true (fun _ => true)
          true "e") ⟨"list", some "a", some "d", none, "CNAME", 60⟩
      = runMain ⟨none, none, fun _ => none⟩
        (Server.mk [⟨1, "a", "A", "x", 60⟩] 2 true (fun _ => true) true (fun _ => true)
          true "e") { (⟨"list", some "a", some "d", none, "CNAME", 60⟩ : Args) with
            type := "AAAA" }) ∧
    ((list_records (Server.mk [⟨1, "a", "A", "x", 60⟩] 2 true (fun _ => true) true
        (fun _ => true) true "e")
        ((⟨"list", some "a", some "d", none, "CNAME", 60⟩ : Args).domain.getD "") none
        (⟨"list", some "a", some "d", none, "CNAME", 60⟩ : Args).subdomain).records
      = ((Server.mk [⟨1, "a", "A", "x", 60⟩] 2 true (fun _ => true) true (fun _ => true)
          true "e").zone.filter (fun r =>
            if truthy (⟨"list", some "a", some "d", none, "CNAME", 60⟩ : Args).subdomain
            then r.subDomain ==
              (⟨"list", some "a", some "d", none, "CNAME", 60⟩ : Args).subdomain.getD ""
            else true)).filter
        (fun r => (Server.mk [⟨1, "a", "A", "x", 60⟩] 2 true (fun _ => true) true
          (fun _ => true) true "e").detailOk r.id)) :=
  ⟨rfl, rfl, by decide,
    (list_action_ignores_type ⟨none, none, fun _ => none⟩ _ _ "AAAA" rfl rfl (by decide)).1,
    (list_action_ignores_type ⟨none, none, fun _ => none⟩ _ _ "AAAA" rfl rfl (by decide)).2⟩

theorem list_records_output_nil (srv : Server) (domain : String)
    (rt sd : Option String) (hl : srv.listOk = true) :
    (list_records srv domain rt sd).output = [] := by
  simp [list_records, hl]

theorem head_append {s t : String} {c : Char} (h : s.data.head? = some c) :
    (s ++ t).data.head? = some c := by
  rw [String.data_append]
  cases hd : s.data with
  | nil => rw [hd] at h; cases h
  | cons a l =>
    rw [hd] at h
    simpa using h

theorem deleteLoop_no_notfound (domain subdomain record_type : String)
    (srv : Server) (recs : List DnsRecord) :
    ("No " ++ record_type ++ " record found for " ++ subdomain ++ "." ++ domain)
      ∉ (deleteLoop domain subdomain srv recs).output := by
  induction recs generalizing srv with
  | nil => simp [deleteLoop]
  | cons r0 rest ih =>
    have hN : ("No " ++ record_type ++ " record found for " ++ subdomain ++ "." ++
        domain).data.head? = some 'N' :=
      head_append (head_append (head_append (head_append (head_append rfl))))
    simp only [deleteLoop]
    split
    · split
      · intro hmem
        rcases List.mem_cons.mp hmem with he | hm
        · have hD : ("Deleted record: " ++ subdomain ++ "." ++ domain ++ " (ID: " ++
              toString r0.id ++ ")").data.head? = some 'D' :=
            head_append (head_append (head_append (head_append (head_append rfl))))
          rw [he, hD] at hN
          injection hN with hc
          exact absurd hc (by decide)
        · exact ih _ hm
      · intro hmem
        rcases List.mem_cons.mp hmem with he | hm
        · have hE : ("Error deleting record " ++ toString r0.id ++ ": " ++
              srv.errText).data.head? = some 'E' :=
            head_append (head_append (head_append rfl))
          rw [he, hE] at hN
          injection hN with hc
          exact absurd hc (by decide)
        · exact ih _ hm
    · exact ih _

/-- C6: when the listing for `(subdomain, record_type)` succeeds but returns
zero records, `delete_record` issues zero `DELETE` calls and zero `POST`
(refresh) calls, prints exactly the "not found" line, and returns `False`;
and whenever the listing returned records but none was deleted, the "not
found" line is never printed — the two negative outcomes are distinct. -/
theorem delete_zero_matches (srv : Server) (domain subdomain record_type : String)
    (hl : srv.listOk = true)
    (hnil : (list_records srv domain (some record_type) (some subdomain)).records = []) :
    (delete_record srv domain subdomain record_type).ok = false ∧
    (delete_record srv domain subdomain record_type).calls.filter
      (fun c => c.method == "DELETE") = [] ∧
    (delete_record srv domain subdomain record_type).calls.filter
      (fun c => c.method == "POST") = [] ∧
    (delete_record srv domain subdomain record_type).output
      = ["No " ++ record_type ++ " record found for " ++ subdomain ++ "." ++ domain] ∧
    (∀ srv2 : Server,
      (list_records srv2 domain (some record_type) (some subdomain)).records ≠ [] →
      (delete_record srv2 domain subdomain record_type).ok = false →
      ("No " ++ record_type ++ " record found for " ++ subdomain ++ "." ++ domain)
        ∉ (delete_record srv2 domain subdomain record_type).output) := by
  have hout := list_records_output_nil srv domain (some record_type) (some subdomain) hl
  have hdr : delete_record srv domain subdomain record_type
      = ⟨false, srv,
          (list_records srv domain (some record_type) (some subdomain)).calls,
          ["No " ++ record_type ++ " record found for " ++ subdomain ++ "." ++ domain]⟩ := by
    simp [delete_record, hnil, deleteLoop, hout]
  refine ⟨by rw [hdr], ?_, ?_, by rw [hdr], ?_⟩
  · rw [hdr]
    exact list_records_calls_filter srv domain _ _ _ (fun s => rfl)
  · rw [hdr]
    exact list_records_calls_filter srv domain _ _ _ (fun s => rfl)
  · intro srv2 hne hok hmem
    have hl2 : srv2.listOk = true := by
      cases h2 : srv2.listOk
      · exact absurd (by simp [list_records, h2]) hne
      · rfl
    have hout2 := list_records_output_nil srv2 domain (some record_type) (some subdomain) hl2
    cases hdl : (deleteLoop domain subdomain srv2
        (list_records srv2 domain (some record_type) (some subdomain)).records).ok
    · have hie : (list_records srv2 domain (some record_type)
          (some subdomain)).records.isEmpty = false := by
        cases hr : (list_records srv2 domain (some record_type) (some subdomain)).records
        · exact absurd hr hne
        · rfl
      have hd2 : (delete_record srv2 domain subdomain record_type).output
          = (deleteLoop domain subdomain srv2
              (list_records srv2 domain (some record_type) (some subdomain)).records).output := by
        simp [delete_record, hdl, hie, hout2]
      rw [hd2] at hmem
      exact deleteLoop_no_notfound domain subdomain record_type srv2 _ hmem
    · have htrue : (delete_record srv2 domain subdomain record_type).ok = true := by
        simp [delete_record, hdl]
      rw [htrue] at hok
      cases hok

/-- C6 witness: an empty zone (listing returns nothing), and a zone whose only
matching record fails to delete (records listed, none deleted, no "not found"). -/
theorem delete_zero_matches_witness :
    ((Server.mk [] 1 true (fun _ => true) true (fun _ => true) true "e").listOk = true) ∧
    ((list_records (Server.mk [] 1 true (fun _ => true) true (fun _ => true) true "e")
        "d" (some "A") (some "www")).records = []) ∧
    ((delete_record (Server.mk [] 1 true (fun _ => true) true (fun _ => true) true "e")
        "d" "www" "A").ok = false) ∧
    ((delete_record (Server.mk [] 1 true (fun _ => true) true (fun _ => true) true "e")
        "d" "www" "A").calls.filter (fun c => c.method == "DELETE") = []) ∧
    ((delete_record (Server.mk [] 1 true (fun _ => true) true (fun _ => true) true "e")
        "d" "www" "A").calls.filter (fun c => c.method == "POST") = []) ∧
    ((delete_record (Server.mk [] 1 true (fun _ => true) true (fun _ => true) true "e")
        "d" "www" "A").output
      = ["No " ++ "A" ++ " record found for " ++ "www" ++ "." ++ "d"]) ∧
    ((list_records (Server.mk [⟨1, "www", "A", "x", 60⟩] 2 true (fun _ => true) true
        (fun _ => false) true "e") "d" (some "A") (some "www")).records ≠ []) ∧
    ((delete_record (Server.mk [⟨1, "www", "A", "x", 60⟩] 2 true (fun _ => true) true
        (fun _ => false) true "e") "d" "www" "A").ok = false) ∧
    (("No " ++ "A" ++ " record found for " ++ "www" ++ "." ++ "d")
      ∉ (delete_record (Server.mk [⟨1, "www", "A", "x", 60⟩] 2 true (fun _ => true) true
          (fun _ => false) true "e") "d" "www" "A").output) :=
  ⟨rfl, by decide,
    (delete_zero_matches _ "d" "www" "A" rfl (by decide)).1,
    (delete_zero_matches _ "d" "www" "A" rfl (by decide)).2.1,
    (delete_zero_matches _ "d" "www" "A" rfl (by decide)).2.2.1,
    (delete_zero_matches _ "d" "www" "A" rfl (by decide)).2.2.2.1,
    by decide, by decide,
    (delete_zero_matches (Server.mk [] 1 true (fun _ => true) true (fun _ => true) true "e")
        "d" "www" "A" rfl (by decide)).2.2.2.2
      (Server.mk [⟨1, "www", "A", "x", 60⟩] 2 true (fun _ => true) true
        (fun _ => false) true "e") (by decide) (by decide)⟩

theorem packLt {a b A M : Nat} (ha : a < A) (hb : b < M) : a * M + b < A * M :=
  calc a * M + b < a * M + M := Nat.add_lt_add_left hb _
    _ = (a + 1) * M := by ring
    _ ≤ A * M := Nat.mul_le_mul_right M (Nat.succ_le_of_lt ha)

theorem sha1Nat_lt (msg : List Nat) : sha1Nat msg < 2 ^ 160 := by
  simp only [sha1Nat]
  generalize sha1Blocks (0x67452301, 0xEFCDAB89, 0x98BADCFE, 0x10325476, 0xC3D2E1F0)
    (toWords (sha1Pad msg)) = t
  obtain ⟨a, b, c, d, e⟩ := t
  have hb : ∀ x : Nat, x % 4294967296 < 4294967296 := fun x => Nat.mod_lt _ (by norm_num)
  have s5 := packLt (packLt (packLt (packLt (hb a) (hb b)) (hb c)) (hb d)) (hb e)
  have hpow : ((((4294967296 * 4294967296) * 4294967296) * 4294967296) * 4294967296 : Nat)
      = 2 ^ 160 := by norm_num
  exact hpow ▸ s5

/-- C5 (counterexample): the signature string cannot change whenever a single
input changes — SHA-1 maps infinitely many secrets into finitely many
digests, so two different secrets (with the five other inputs fixed) produce
the same signature string. -/
theorem signature_not_injective :
    ∃ s1 s2 : String, s1 ≠ s2 ∧
      ovhSignature s1 "ck" "GET" "/auth/time" "" "12345"
        = ovhSignature s2 "ck" "GET" "/auth/time" "" "12345" := by
  obtain ⟨m, n, hmn, hf⟩ := Finite.exists_ne_map_eq_of_infinite
    (fun k : Nat =>
      (⟨sha1Nat (utf8Bytes (to_sign ⟨List.replicate k 'a'⟩ "ck" "GET" "/auth/time" "" "12345")),
        sha1Nat_lt _⟩ : Fin (2 ^ 160)))
  refine ⟨⟨List.replicate m 'a'⟩, ⟨List.replicate n 'a'⟩, ?_, ?_⟩
  · intro h
    apply hmn
    have h2 : List.replicate m 'a' = List.replicate n 'a' := congrArg String.data h
    have h3 := congrArg List.length h2
    simpa using h3
  · have hd : sha1Nat (utf8Bytes
        (to_sign ⟨List.replicate m 'a'⟩ "ck" "GET" "/auth/time" "" "12345"))
        = sha1Nat (utf8Bytes
          (to_sign ⟨List.replicate n 'a'⟩ "ck" "GET" "/auth/time" "" "12345")) :=
      congrArg Fin.val hf
    simp only [ovhSignature]
    rw [hd]

/-- C5 (amended): signature computation is deterministic, and changing any
single one of the six inputs (secret, consumer key, method, path — hence the
full URL —, body, server time) while fixing the other five changes the string
that gets signed; the signature string itself need not change, since SHA-1 is
not injective. -/
theorem signature_deterministic_and_to_sign_sensitive :
    (∀ s c m p b t, ovhSignature s c m p b t = ovhSignature s c m p b t) ∧
    (∀ s1 s2 c m p b t, s1 ≠ s2 → to_sign s1 c m p b t ≠ to_sign s2 c m p b t) ∧
    (∀ s c1 c2 m p b t, c1 ≠ c2 → to_sign s c1 m p b t ≠ to_sign s c2 m p b t) ∧
    (∀ s c m1 m2 p b t, m1 ≠ m2 → to_sign s c m1 p b t ≠ to_sign s c m2 p b t) ∧
    (∀ s c m p1 p2 b t, p1 ≠ p2 → to_sign s c m p1 b t ≠ to_sign s c m p2 b t) ∧
    (∀ s c m p b1 b2 t, b1 ≠ b2 → to_sign s c m p b1 t ≠ to_sign s c m p b2 t) ∧
    (∀ s c m p b t1 t2, t1 ≠ t2 → to_sign s c m p b t1 ≠ to_sign s c m p b t2) := by
  refine ⟨fun s c m p b t => rfl, ?_, ?_, ?_, ?_, ?_, ?_⟩
  · intro s1 s2 c m p b t hne he
    simp only [to_sign, String.append_assoc] at he
    exact hne (str_cancel_right he)
  · intro s c1 c2 m p b t hne he
    simp only [to_sign, String.append_assoc] at he
    exact hne (str_cancel_right (str_cancel_left (str_cancel_left he)))
  · intro s c m1 m2 p b t hne he
    simp only [to_sign, String.append_assoc] at he
    exact hne (str_cancel_right
      (str_cancel_left (str_cancel_left (str_cancel_left (str_cancel_left he)))))
  · intro s c m p1 p2 b t hne he
    simp only [to_sign, String.append_assoc] at he
    exact hne (str_cancel_right
      (str_cancel_left (str_cancel_left (str_cancel_left (str_cancel_left
        (str_cancel_left (str_cancel_left (str_cancel_left he))))))))
  · intro s c m p b1 b2 t hne he
    simp only [to_sign, String.append_assoc] at he
    exact hne (str_cancel_right
      (str_cancel_left (str_cancel_left (str_cancel_left (str_cancel_left
        (str_cancel_left (str_cancel_left (str_cancel_left
          (str_cancel_left (str_cancel_left he))))))))))
  · intro s c m p b t1 t2 hne he
    simp only [to_sign, String.append_assoc] at he
    exact hne (str_cancel_left
      (str_cancel_left (str_cancel_left (str_cancel_left (str_cancel_left
        (str_cancel_left (str_cancel_left (str_cancel_left
          (str_cancel_left (str_cancel_left (str_cancel_left he)))))))))))

/-- C5 witness: each sensitivity clause at concrete inputs. -/
theorem signature_sensitivity_witness :
    ovhSignature "s" "c" "GET" "/p" "b" "1" = ovhSignature "s" "c" "GET" "/p" "b" "1" ∧
    (("s" : String) ≠ "s2" ∧ to_sign "s" "c" "GET" "/p" "b" "1" ≠ to_sign "s2" "c" "GET" "/p" "b" "1") ∧
    (("c" : String) ≠ "c2" ∧ to_sign "s" "c" "GET" "/p" "b" "1" ≠ to_sign "s" "c2" "GET" "/p" "b" "1") ∧
    (("GET" : String) ≠ "PUT" ∧ to_sign "s" "c" "GET" "/p" "b" "1" ≠ to_sign "s" "c" "PUT" "/p" "b" "1") ∧
    (("/p" : String) ≠ "/q" ∧ to_sign "s" "c" "GET" "/p" "b" "1" ≠ to_sign "s" "c" "GET" "/q" "b" "1") ∧
    (("b" : String) ≠ "b2" ∧ to_sign "s" "c" "GET" "/p" "b" "1" ≠ to_sign "s" "c" "GET" "/p" "b2" "1") ∧
    (("1" : String) ≠ "2" ∧ to_sign "s" "c" "GET" "/p" "b" "1" ≠ to_sign "s" "c" "GET" "/p" "b" "2") :=
  ⟨signature_deterministic_and_to_sign_sensitive.1 "s" "c" "GET" "/p" "b" "1",
   ⟨by decide, signature_deterministic_and_to_sign_sensitive.2.1 _ _ _ _ _ _ _ (by decide)⟩,
   ⟨by decide, signature_deterministic_and_to_sign_sensitive.2.2.1 _ _ _ _ _ _ _ (by decide)⟩,
   ⟨by decide, signature_deterministic_and_to_sign_sensitive.2.2.2.1 _ _ _ _ _ _ _ (by decide)⟩,
   ⟨by decide, signature_deterministic_and_to_sign_sensitive.2.2.2.2.1 _ _ _ _ _ _ _ (by decide)⟩,
   ⟨by decide, signature_deterministic_and_to_sign_sensitive.2.2.2.2.2.1 _ _ _ _ _ _ _ (by decide)⟩,
   ⟨by decide, signature_deterministic_and_to_sign_sensitive.2.2.2.2.2.2 _ _ _ _ _ _ _ (by decide)⟩⟩

/-! ## Reconciliation lemmas for `add_record` / `delete_record` -/

theorem matchesQuery_eq_qmatch (rt sd : String) (hrt : rt ≠ "") (hsd : sd ≠ "") :
    matchesQuery (some rt) (some sd)
      = fun r => r.subDomain == sd && r.fieldType == rt := by
  funext r
  have h1 : truthy (some rt) = true := by simp [truthy, hrt]
  have h2 : truthy (some sd) = true := by simp [truthy, hsd]
  simp [matchesQuery, h1, h2]
  exact Bool.and_comm _ _

theorem list_records_healthy (srv : Server) (domain : String) (rt sd : Option String)
    (hl : srv.listOk = true) (hdet : ∀ i, srv.detailOk i = true)
    (hnd : (srv.zone.map (fun r => r.id)).Nodup) :
    (list_records srv domain rt sd).records = srv.zone.filter (matchesQuery rt sd) := by
  rw [list_records_records srv domain rt sd hl hnd]
  apply List.filter_eq_self.mpr
  intro a _
  exact hdet a.id

theorem delete_record_single_fields (srv : Server) (domain sd rt : String)
    (r : DnsRecord) (hl : srv.listOk = true) (hdet : ∀ i, srv.detailOk i = true)
    (hdel : ∀ i, srv.deleteOk i = true)
    (hnd : (srv.zone.map (fun x => x.id)).Nodup)
    (hq : srv.zone.filter (matchesQuery (some rt) (some sd)) = [r])
    (hrs : (r.subDomain == sd) = true) :
    (delete_record srv domain sd rt).ok = true ∧
    (delete_record srv domain sd rt).server
      = { srv with zone := srv.zone.filter (fun x => x.id != r.id) } ∧
    (delete_record srv domain sd rt).calls
      = (list_records srv domain (some rt) (some sd)).calls ++
        [⟨"DELETE", recordIdPath domain r.id⟩, ⟨"POST", refreshPath domain⟩] := by
  have hrec : (list_records srv domain (some rt) (some sd)).records = [r] := by
    rw [list_records_healthy srv domain _ _ hl hdet hnd, hq]
  have hdl : deleteLoop domain sd srv [r]
      = ⟨true, { srv with zone := srv.zone.filter (fun x => x.id != r.id) },
          [⟨"DELETE", recordIdPath domain r.id⟩],
          ["Deleted record: " ++ sd ++ "." ++ domain ++ " (ID: " ++ toString r.id ++ ")"]⟩ := by
    simp [deleteLoop, hrs, hdel r.id]
  refine ⟨?_, ?_, ?_⟩ <;>
    simp [delete_record, hrec, hdl, refresh_zone_calls, refresh_zone_server]

/-- C1 (amended): with exactly one existing record matching the nonempty
`(subdomain, record_type)` pair, a different target, and all requests
succeeding, `add_record` issues exactly one `DELETE` followed by exactly one
record-creating `POST` — and exactly TWO zone refresh calls in total (one
inside `delete_record` after the successful deletion, one after the create),
not one as the original claim stated. -/
theorem add_record_update_trace (srv : Server) (domain sd t2 rt : String) (ttl : Nat)
    (r : DnsRecord) (hrt : rt ≠ "") (hsd : sd ≠ "")
    (hl : srv.listOk = true) (hpost : srv.postOk = true)
    (hdet : ∀ i, srv.detailOk i = true) (hdel : ∀ i, srv.deleteOk i = true)
    (hnd : (srv.zone.map (fun x => x.id)).Nodup)
    (hq : srv.zone.filter (fun x => x.subDomain == sd && x.fieldType == rt) = [r])
    (hne : r.target ≠ t2) :
    (add_record srv domain sd t2 rt ttl).ok = true ∧
    (add_record srv domain sd t2 rt ttl).calls.filter
        (fun c => c.method == "DELETE" || (c.method == "POST" && c.path == recordPath domain))
      = [⟨"DELETE", recordIdPath domain r.id⟩, ⟨"POST", recordPath domain⟩] ∧
    ((add_record srv domain sd t2 rt ttl).calls.filter
        (fun c => c.method == "POST" && c.path == refreshPath domain)).length = 2 := by
  have hmq := matchesQuery_eq_qmatch rt sd hrt hsd
  have hq' : srv.zone.filter (matchesQuery (some rt) (some sd)) = [r] := by
    rw [hmq]; exact hq
  have hcond : (r.subDomain == sd && r.fieldType == rt) = true := by
    have hmem : r ∈ srv.zone.filter (fun x => x.subDomain == sd && x.fieldType == rt) := by
      rw [hq]; exact List.mem_singleton.mpr rfl
    exact (List.mem_filter.mp hmem).2
  have htgt : (r.target == t2) = false := beq_eq_false_iff_ne.mpr hne
  have hcond2 : (r.subDomain == sd) = true ∧ (r.fieldType == rt) = true := by
    simpa [Bool.and_eq_true] using hcond
  have hrec : (list_records srv domain (some rt) (some sd)).records = [r] := by
    rw [list_records_healthy srv domain _ _ hl hdet hnd, hq']
  have hlrcalls : (list_records srv domain (some rt) (some sd)).calls
      = [⟨"GET", listQueryPath domain (some rt) (some sd)⟩,
         ⟨"GET", recordIdPath domain r.id⟩] := by
    simp [list_records, hl, hq']
  obtain ⟨hdok, hdsrv, hdcalls⟩ :=
    delete_record_single_fields srv domain sd rt r hl hdet hdel hnd hq' hcond2.1
  have hcalls : (add_record srv domain sd t2 rt ttl).calls
      = [⟨"GET", listQueryPath domain (some rt) (some sd)⟩,
         ⟨"GET", recordIdPath domain r.id⟩,
         ⟨"GET", listQueryPath domain (some rt) (some sd)⟩,
         ⟨"GET", recordIdPath domain r.id⟩,
         ⟨"DELETE", recordIdPath domain r.id⟩,
         ⟨"POST", refreshPath domain⟩,
         ⟨"POST", recordPath domain⟩,
         ⟨"POST", refreshPath domain⟩] := by
    simp [add_record, addLoop, hrec, hlrcalls, hcond, htgt, hdcalls, hdsrv, hpost,
      refresh_zone_calls, refresh_zone_server]
  have hok : (add_record srv domain sd t2 rt ttl).ok = true := by
    simp [add_record, addLoop, hrec, hcond, htgt, hdsrv, hpost,
      refresh_zone_calls, refresh_zone_server]
  have e1 : (("GET" : String) == "DELETE") = false := rfl
  have e2 : (("GET" : String) == "POST") = false := rfl
  have e3 : (("DELETE" : String) == "DELETE") = true := rfl
  have e4 : (("DELETE" : String) == "POST") = false := rfl
  have e5 : (("POST" : String) == "DELETE") = false := rfl
  have e6 : (("POST" : String) == "POST") = true := rfl
  have e7 : (refreshPath domain == recordPath domain) = false :=
    beq_eq_false_iff_ne.mpr (refreshPath_ne_recordPath domain)
  have e8 : (recordPath domain == refreshPath domain) = false :=
    beq_eq_false_iff_ne.mpr (fun h => refreshPath_ne_recordPath domain h.symm)
  refine ⟨hok, ?_, ?_⟩
  · rw [hcalls]
    simp [List.filter, e1, e2, e3, e4, e5, e6, e7, e8]
  · rw [hcalls]
    simp [List.filter, e1, e2, e3, e4, e5, e6, e7, e8]

/-- C1 (counterexample): a zone with exactly one `(www, CNAME)` record whose
target differs from the new one, every request succeeding — the claimed
scenario — yet `add_record` performs two zone refresh calls, not one (the
delete and the create each trigger one). -/
theorem add_record_update_refresh_counterexample :
    ((Server.mk [⟨1, "www", "CNAME", "old.example.com.", 3600⟩] 2 true (fun _ => true)
        true (fun _ => true) true "err").zone.filter
        (fun x => x.subDomain == "www" && x.fieldType == "CNAME")
      = [⟨1, "www", "CNAME", "old.example.com.", 3600⟩]) ∧
    ((⟨1, "www", "CNAME", "old.example.com.", 3600⟩ : DnsRecord).target
      ≠ "new.example.com.") ∧
    (((add_record (Server.mk [⟨1, "www", "CNAME", "old.example.com.", 3600⟩] 2 true
        (fun _ => true) true (fun _ => true) true "err") "example.com" "www"
        "new.example.com." "CNAME" 3600).calls.filter
      (fun c => c.method == "DELETE")).length = 1) ∧
    (((add_record (Server.mk [⟨1, "www", "CNAME", "old.example.com.", 3600⟩] 2 true
        (fun _ => true) true (fun _ => true) true "err") "example.com" "www"
        "new.example.com." "CNAME" 3600).calls.filter
      (fun c => c.method == "POST" && c.path == recordPath "example.com")).length = 1) ∧
    ¬ (((add_record (Server.mk [⟨1, "www", "CNAME", "old.example.com.", 3600⟩] 2 true
        (fun _ => true) true (fun _ => true) true "err") "example.com" "www"
        "new.example.com." "CNAME" 3600).calls.filter
      (fun c => c.method == "POST" && c.path == refreshPath "example.com")).length = 1) ∧
    (((add_record (Server.mk [⟨1, "www", "CNAME", "old.example.com.", 3600⟩] 2 true
        (fun _ => true) true (fun _ => true) true "err") "example.com" "www"
        "new.example.com." "CNAME" 3600).calls.filter
      (fun c => c.method == "POST" && c.path == refreshPath "example.com")).length = 2) := by
  decide

/-- C1 witness for the amended theorem. -/
theorem add_record_update_trace_witness :
    ((Server.mk [⟨1, "www", "CNAME", "old.example.com.", 3600⟩] 2 true (fun _ => true)
        true (fun _ => true) true "err").zone.filter
        (fun x => x.subDomain == "www" && x.fieldType == "CNAME")
      = [⟨1, "www", "CNAME", "old.example.com.", 3600⟩]) ∧
    ((⟨1, "www", "CNAME", "old.example.com.", 3600⟩ : DnsRecord).target
      ≠ "new.example.com.") ∧
    ((add_record (Server.mk [⟨1, "www", "CNAME", "old.example.com.", 3600⟩] 2 true
        (fun _ => true) true (fun _ => true) true "err") "example.com" "www"
        "new.example.com." "CNAME" 3600).ok = true ∧
      (add_record (Server.mk [⟨1, "www", "CNAME", "old.example.com.", 3600⟩] 2 true
        (fun _ => true) true (fun _ => true) true "err") "example.com" "www"
        "new.example.com." "CNAME" 3600).calls.filter
          (fun c => c.method == "DELETE" ||
            (c.method == "POST" && c.path == recordPath "example.com"))
        = [⟨"DELETE", recordIdPath "example.com" 1⟩, ⟨"POST", recordPath "example.com"⟩] ∧
      ((add_record (Server.mk [⟨1, "www", "CNAME", "old.example.com.", 3600⟩] 2 true
        (fun _ => true) true (fun _ => true) true "err") "example.com" "www"
        "new.example.com." "CNAME" 3600).calls.filter
          (fun c => c.method == "POST" && c.path == refreshPath "example.com")).length = 2) :=
  ⟨by decide, by decide,
    add_record_update_trace (Server.mk [⟨1, "www", "CNAME", "old.example.com.", 3600⟩] 2
        true (fun _ => true) true (fun _ => true) true "err") "example.com" "www"
      "new.example.com." "CNAME" 3600 ⟨1, "www", "CNAME", "old.example.com.", 3600⟩
      (by decide) (by decide) rfl rfl (fun i => rfl) (fun i => rfl)
      (by decide) (by decide) (by decide)⟩

theorem nodup_append_fresh (zone : List DnsRecord) (nid : Nat)
    (hnd : (zone.map (fun x => x.id)).Nodup) (hfresh : ∀ x ∈ zone, x.id ≠ nid)
    (r : DnsRecord) (hr : r.id = nid) :
    ((zone ++ [r]).map (fun x => x.id)).Nodup := by
  rw [List.map_append]
  refine List.Nodup.append hnd (by simp) ?_
  intro a ha hb
  rcases List.mem_map.mp ha with ⟨x, hx, hxa⟩
  simp only [List.map_cons, List.map_nil, List.mem_singleton] at hb
  exact hfresh x hx (by rw [hxa, hb, hr])

theorem add_record_exists_fields (srv : Server) (domain sd t rt : String) (ttl : Nat)
    (r : DnsRecord) (L : List DnsRecord) (hrt : rt ≠ "") (hsd : sd ≠ "")
    (hl : srv.listOk = true) (hdet : ∀ i, srv.detailOk i = true)
    (hnd : (srv.zone.map (fun x => x.id)).Nodup)
    (hq : srv.zone.filter (matchesQuery (some rt) (some sd)) = r :: L)
    (htgt : (r.target == t) = true) :
    (add_record srv domain sd t rt ttl).ok = true ∧
    (add_record srv domain sd t rt ttl).server = srv ∧
    (add_record srv domain sd t rt ttl).output
      = ["Record already exists: " ++ sd ++ "." ++ domain ++ " -> " ++ t] ∧
    (add_record srv domain sd t rt ttl).calls.filter
      (fun c => c.method == "POST" || c.method == "DELETE") = [] := by
  have hrec : (list_records srv domain (some rt) (some sd)).records = r :: L := by
    rw [list_records_healthy srv domain _ _ hl hdet hnd, hq]
  have hmem : r ∈ srv.zone.filter (matchesQuery (some rt) (some sd)) := by
    rw [hq]; exact List.mem_cons_self r L
  have hcond : (r.subDomain == sd && r.fieldType == rt) = true := by
    have h2 := (List.mem_filter.mp hmem).2
    rwa [matchesQuery_eq_qmatch rt sd hrt hsd] at h2
  have hal : addLoop domain sd t rt srv (r :: L)
      = ⟨true, srv, [],
          ["Record already exists: " ++ sd ++ "." ++ domain ++ " -> " ++ t]⟩ := by
    simp [addLoop, hcond, htgt]
  have hout := list_records_output_nil srv domain (some rt) (some sd) hl
  have hcl : (add_record srv domain sd t rt ttl).calls
      = (list_records srv domain (some rt) (some sd)).calls := by
    simp [add_record, hrec, hal]
  refine ⟨?_, ?_, ?_, ?_⟩
  · simp [add_record, hrec, hal]
  · simp [add_record, hrec, hal]
  · simp [add_record, hrec, hal, hout]
  · rw [hcl]
    exact list_records_calls_filter srv domain _ _ _ (fun s => rfl)

theorem add_record_create_fields (srv : Server) (domain sd t rt : String) (ttl : Nat)
    (hl : srv.listOk = true) (hpost : srv.postOk = true)
    (hdet : ∀ i, srv.detailOk i = true)
    (hnd : (srv.zone.map (fun x => x.id)).Nodup)
    (hq0 : srv.zone.filter (matchesQuery (some rt) (some sd)) = []) :
    (add_record srv domain sd t rt ttl).ok = true ∧
    (add_record srv domain sd t rt ttl).server
      = { srv with
          zone := srv.zone ++ [⟨srv.nextId, sd, rt, t, ttl⟩],
          nextId := srv.nextId + 1 } := by
  have hrec : (list_records srv domain (some rt) (some sd)).records = [] := by
    rw [list_records_healthy srv domain _ _ hl hdet hnd, hq0]
  constructor <;>
    simp [add_record, hrec, addLoop, hpost, refresh_zone_server, refresh_zone_calls]

theorem add_record_update_server (srv : Server) (domain sd t2 rt : String) (ttl : Nat)
    (r : DnsRecord) (hrt : rt ≠ "") (hsd : sd ≠ "")
    (hl : srv.listOk = true) (hpost : srv.postOk = true)
    (hdet : ∀ i, srv.detailOk i = true) (hdel : ∀ i, srv.deleteOk i = true)
    (hnd : (srv.zone.map (fun x => x.id)).Nodup)
    (hq : srv.zone.filter (matchesQuery (some rt) (some sd)) = [r])
    (htgt : (r.target == t2) = false) :
    (add_record srv domain sd t2 rt ttl).ok = true ∧
    (add_record srv domain sd t2 rt ttl).server
      = { srv with
          zone := srv.zone.filter (fun x => x.id != r.id) ++ [⟨srv.nextId, sd, rt, t2, ttl⟩],
          nextId := srv.nextId + 1 } := by
  have hmem : r ∈ srv.zone.filter (matchesQuery (some rt) (some sd)) := by
    rw [hq]; exact List.mem_cons_self r []
  have hcond : (r.subDomain == sd && r.fieldType == rt) = true := by
    have h2 := (List.mem_filter.mp hmem).2
    rwa [matchesQuery_eq_qmatch rt sd hrt hsd] at h2
  have hcond2 : (r.subDomain == sd) = true ∧ (r.fieldType == rt) = true := by
    simpa [Bool.and_eq_true] using hcond
  have hrec : (list_records srv domain (some rt) (some sd)).records = [r] := by
    rw [list_records_healthy srv domain _ _ hl hdet hnd, hq]
  obtain ⟨hdok, hdsrv, hdcalls⟩ :=
    delete_record_single_fields srv domain sd rt r hl hdet hdel hnd hq hcond2.1
  constructor <;>
    simp [add_record, addLoop, hrec, hcond, htgt, hdsrv, hpost,
      refresh_zone_server, refresh_zone_calls]

/-- C2: under the zone invariant the tool maintains — at most one existing
record matches the nonempty `(subdomain, record_type)` pair, record ids are
distinct and the next id is fresh — and with all requests succeeding, a first
`add_record` succeeds, and a second call with the same arguments reports
"already exists", returns success, and performs zero mutating HTTP calls (its
trace contains no `POST` and no `DELETE`, hence no create and no refresh). -/
theorem add_record_idempotent (srv : Server) (domain sd t rt : String) (ttl : Nat)
    (hrt : rt ≠ "") (hsd : sd ≠ "")
    (hl : srv.listOk = true) (hpost : srv.postOk = true)
    (hdet : ∀ i, srv.detailOk i = true) (hdel : ∀ i, srv.deleteOk i = true)
    (hnd : (srv.zone.map (fun x => x.id)).Nodup)
    (hfresh : ∀ x ∈ srv.zone, x.id ≠ srv.nextId)
    (hq : srv.zone.filter (matchesQuery (some rt) (some sd)) = [] ∨
      ∃ r, srv.zone.filter (matchesQuery (some rt) (some sd)) = [r]) :
    (add_record srv domain sd t rt ttl).ok = true ∧
    (add_record (add_record srv domain sd t rt ttl).server domain sd t rt ttl).ok = true ∧
    (add_record (add_record srv domain sd t rt ttl).server domain sd t rt ttl).output
      = ["Record already exists: " ++ sd ++ "." ++ domain ++ " -> " ++ t] ∧
    (add_record (add_record srv domain sd t rt ttl).server domain sd t rt ttl).calls.filter
      (fun c => c.method == "POST" || c.method == "DELETE") = [] := by
  have hmq := matchesQuery_eq_qmatch rt sd hrt hsd
  have hnew : ∀ n : Nat, matchesQuery (some rt) (some sd) ⟨n, sd, rt, t, ttl⟩ = true := by
    intro n
    rw [hmq]
    simp
  rcases hq with hq0 | ⟨r, hq1⟩
  · obtain ⟨hok1, hsrv1⟩ :=
      add_record_create_fields srv domain sd t rt ttl hl hpost hdet hnd hq0
    have hnd2 : ((srv.zone ++ [(⟨srv.nextId, sd, rt, t, ttl⟩ : DnsRecord)]).map
        (fun x => x.id)).Nodup :=
      nodup_append_fresh srv.zone srv.nextId hnd hfresh _ rfl
    have hqs : (srv.zone ++ [(⟨srv.nextId, sd, rt, t, ttl⟩ : DnsRecord)]).filter
        (matchesQuery (some rt) (some sd)) = [⟨srv.nextId, sd, rt, t, ttl⟩] := by
      rw [List.filter_append, hq0]
      simp [hnew]
    obtain ⟨hok2, _, hout2, hc2⟩ :=
      add_record_exists_fields
        { srv with zone := srv.zone ++ [⟨srv.nextId, sd, rt, t, ttl⟩], nextId := srv.nextId + 1 }
        domain sd t rt ttl ⟨srv.nextId, sd, rt, t, ttl⟩ [] hrt hsd hl hdet hnd2 hqs (by simp)
    exact ⟨hok1, by rw [hsrv1]; exact hok2, by rw [hsrv1]; exact hout2,
      by rw [hsrv1]; exact hc2⟩
  · cases htb : (r.target == t) with
    | true =>
      obtain ⟨hok1, hsrv1, hout1, hc1⟩ :=
        add_record_exists_fields srv domain sd t rt ttl r [] hrt hsd hl hdet hnd hq1 htb
      exact ⟨hok1, by rw [hsrv1]; exact hok1, by rw [hsrv1]; exact hout1,
        by rw [hsrv1]; exact hc1⟩
    | false =>
      obtain ⟨hok1, hsrv1⟩ :=
        add_record_update_server srv domain sd t rt ttl r hrt hsd hl hpost hdet hdel hnd hq1 htb
      have hq2 : (srv.zone.filter (fun x => x.id != r.id)).filter
          (matchesQuery (some rt) (some sd)) = [] := by
        have hcomm : (srv.zone.filter (fun x => x.id != r.id)).filter
            (matchesQuery (some rt) (some sd))
            = (srv.zone.filter (matchesQuery (some rt) (some sd))).filter
              (fun x => x.id != r.id) := by
          rw [List.filter_filter, List.filter_filter]
          apply List.filter_congr
          intro x _
          exact Bool.and_comm _ _
        rw [hcomm, hq1]
        simp
      have hqs : ((srv.zone.filter (fun x => x.id != r.id)) ++
          [(⟨srv.nextId, sd, rt, t, ttl⟩ : DnsRecord)]).filter
          (matchesQuery (some rt) (some sd)) = [⟨srv.nextId, sd, rt, t, ttl⟩] := by
        rw [List.filter_append, hq2]
        simp [hnew]
      have hnd2 : (((srv.zone.filter (fun x => x.id != r.id)) ++
          [(⟨srv.nextId, sd, rt, t, ttl⟩ : DnsRecord)]).map (fun x => x.id)).Nodup := by
        have hsub : ((srv.zone.filter (fun x => x.id != r.id)).map
            (fun x => x.id)).Nodup :=
          List.Nodup.sublist
            (List.Sublist.map (fun x => x.id) (List.filter_sublist srv.zone)) hnd
        exact nodup_append_fresh _ srv.nextId hsub
          (fun x hx => hfresh x (List.mem_of_mem_filter hx)) _ rfl
      obtain ⟨hok2, _, hout2, hc2⟩ :=
        add_record_exists_fields
          { srv with
            zone := srv.zone.filter (fun x => x.id != r.id) ++ [⟨srv.nextId, sd, rt, t, ttl⟩],
            nextId := srv.nextId + 1 }
          domain sd t rt ttl ⟨srv.nextId, sd, rt, t, ttl⟩ [] hrt hsd hl hdet hnd2 hqs (by simp)
      exact ⟨hok1, by rw [hsrv1]; exact hok2, by rw [hsrv1]; exact hout2,
        by rw [hsrv1]; exact hc2⟩

/-- C2 witness: an empty zone; the first call creates the record, the second
call reports "already exists" with no mutating calls. -/
theorem add_record_idempotent_witness :
    ((Server.mk [] 1 true (fun _ => true) true (fun _ => true) true "e").zone.filter
      (matchesQuery (some "CNAME") (some "www")) = []) ∧
    ((add_record (Server.mk [] 1 true (fun _ => true) true (fun _ => true) true "e")
        "example.com" "www" "example.com." "CNAME" 3600).ok = true ∧
      (add_record (add_record (Server.mk [] 1 true (fun _ => true) true (fun _ => true)
          true "e") "example.com" "www" "example.com." "CNAME" 3600).server
        "example.com" "www" "example.com." "CNAME" 3600).ok = true ∧
      (add_record (add_record (Server.mk [] 1 true (fun _ => true) true (fun _ => true)
          true "e") "example.com" "www" "example.com." "CNAME" 3600).server
        "example.com" "www" "example.com." "CNAME" 3600).output
        = ["Record already exists: " ++ "www" ++ "." ++ "example.com" ++ " -> " ++
            "example.com."] ∧
      (add_record (add_record (Server.mk [] 1 true (fun _ => true) true (fun _ => true)
          true "e") "example.com" "www" "example.com." "CNAME" 3600).server
        "example.com" "www" "example.com." "CNAME" 3600).calls.filter
        (fun c => c.method == "POST" || c.method == "DELETE") = []) :=
  ⟨by decide,
    add_record_idempotent (Server.mk [] 1 true (fun _ => true) true (fun _ => true) true "e")
      "example.com" "www" "example.com." "CNAME" 3600 (by decide) (by decide) rfl rfl
      (fun i => rfl) (fun i => rfl) (by decide) (by decide) (Or.inl (by decide))⟩
